import Mathlib

/-!
Shallow embedding of scripts/sprites/render_sprites.py, a Blender batch
script that renders 3D unit models to PNG sprites.  Machine floats of the
script are embedded as rationals; Blender scene objects are embedded as
records carrying exactly the fields the script reads (type, name,
bound_box, matrix_world), and the world transform is embedded as the
function it denotes on corner vectors.
-/

/-- A 3D point with rational coordinates, standing for a mathutils Vector.
In the script a bound-box corner v is indexed v[0], v[1], v[2]. -/
structure Vec3 where
  x : ℚ
  y : ℚ
  z : ℚ
deriving DecidableEq, Repr

/-- A Blender scene object, restricted to the fields the script reads:
obj.type, obj.name, obj.bound_box (the corner list, eight entries for a
real mesh) and obj.matrix_world, embedded as the affine map it applies
to a corner vector. -/
structure Obj where
  type : String
  name : String
  bound_box : List Vec3
  matrix_world : Vec3 → Vec3

/-- The camera state the script mutates: data.ortho_scale and location. -/
structure Camera where
  ortho_scale : ℚ
  location : Vec3

/-- The scene state read by fit_camera_to_objects: the object list and the
render resolution (used for the aspect ratio). -/
structure Scene where
  objects : List Obj
  resolution_x : ℕ
  resolution_y : ℕ

/-- Python min over a nonempty list; 0 on the empty list (Python would
raise there, which no caller reaches with a real bound box). -/
def minList : List ℚ → ℚ
  | [] => 0
  | q :: qs => qs.foldl min q

/-- Python max over a nonempty list; 0 on the empty list. -/
def maxList : List ℚ → ℚ
  | [] => 0
  | q :: qs => qs.foldl max q

/-- Lowercasing of a name, as Python str.lower on ASCII names. -/
def strLower (s : String) : String :=
  String.mk (s.data.map Char.toLower)

/-- Whether pat occurs at the start of s, on character lists. -/
def charListHasPre : List Char → List Char → Bool
  | [], _ => true
  | _ :: _, [] => false
  | p :: ps, c :: cs => p == c && charListHasPre ps cs

/-- Whether pat occurs as a contiguous substring of s, on character
lists: the Python expression pat in s. -/
def charListHasSub (pat : List Char) : List Char → Bool
  | [] => pat.isEmpty
  | c :: cs => charListHasPre pat (c :: cs) || charListHasSub pat cs

/-- The Python membership test pattern in name for strings. -/
def strContainsSub (s pat : String) : Bool :=
  charListHasSub pat.data s.data

/-- EXCLUDE_PATTERNS from render_sprites.py: object name substrings that
mark bases, platforms and similar support geometry. -/
def EXCLUDE_PATTERNS : List String :=
  ["plane", "base", "floor", "platform", "ground",
   "hex", "hexagon", "hexagone", "socle",
   "support", "stand", "pad"]

/-- z_height of the bound box: max minus min of the corner z values. -/
def zHeightOf (bb : List Vec3) : ℚ :=
  maxList (bb.map Vec3.z) - minList (bb.map Vec3.z)

/-- xy_size of the bound box: the larger of the x extent and the y
extent of the corners. -/
def xySizeOf (bb : List Vec3) : ℚ :=
  max (maxList (bb.map Vec3.x) - minList (bb.map Vec3.x))
      (maxList (bb.map Vec3.y) - minList (bb.map Vec3.y))

/-- should_exclude_object from render_sprites.py.  Non-mesh objects are
retained at once; then the lowercased name is tested against every
exclusion substring; then the flatness test fires when xy_size is
positive and z_height / xy_size is below 0.05 (embedded exactly as
1/20). -/
def should_exclude_object (obj : Obj) : Bool :=
  if obj.type ≠ "MESH" then false
  else if EXCLUDE_PATTERNS.any (fun pat => strContainsSub (strLower obj.name) pat) then
    true
  else if xySizeOf obj.bound_box > 0 ∧ zHeightOf obj.bound_box / xySizeOf obj.bound_box < 1/20 then
    true
  else false

/-- The mesh objects of the scene, as filtered at the top of
fit_camera_to_objects. -/
def sceneMeshes (scene : Scene) : List Obj :=
  scene.objects.filter (fun obj => obj.type == "MESH")

/-- All bound-box corners of all mesh objects, each transformed to world
space by its objects matrix_world, in iteration order. -/
def worldCorners (scene : Scene) : List Vec3 :=
  (List.map (fun obj => obj.bound_box.map obj.matrix_world) (sceneMeshes scene)).flatten

/-- min_x accumulated over the world corners. -/
def sceneMinX (scene : Scene) : ℚ := minList ((worldCorners scene).map Vec3.x)

/-- max_x accumulated over the world corners. -/
def sceneMaxX (scene : Scene) : ℚ := maxList ((worldCorners scene).map Vec3.x)

/-- min_y accumulated over the world corners. -/
def sceneMinY (scene : Scene) : ℚ := minList ((worldCorners scene).map Vec3.y)

/-- max_y accumulated over the world corners. -/
def sceneMaxY (scene : Scene) : ℚ := maxList ((worldCorners scene).map Vec3.y)

/-- width of the combined rectangle. -/
def sceneWidth (scene : Scene) : ℚ := sceneMaxX scene - sceneMinX scene

/-- height of the combined rectangle. -/
def sceneHeight (scene : Scene) : ℚ := sceneMaxY scene - sceneMinY scene

/-- aspect = resolution_x / resolution_y, as rational division. -/
def aspectOf (scene : Scene) : ℚ :=
  (scene.resolution_x : ℚ) / (scene.resolution_y : ℚ)

/-- fit_camera_to_objects from render_sprites.py.  With no mesh objects
it returns at once; otherwise it accumulates the 2D bounding rectangle
of all world-space corners, chooses the orthographic scale from the
constraining axis with the padding factor, and recenters the camera x
and y on the rectangle center, z untouched.  The script default for
padding is 1.2; callers here pass it explicitly as 6/5. -/
def fit_camera_to_objects (scene : Scene) (camera : Camera) (padding : ℚ) : Camera :=
  if (sceneMeshes scene).isEmpty then camera
  else
    let width := sceneWidth scene
    let height := sceneHeight scene
    let aspect := aspectOf scene
    let os := if width / aspect > height then width * padding else height * aspect * padding
    { camera with
      ortho_scale := os,
      location := { camera.location with
                    x := (sceneMinX scene + sceneMaxX scene) / 2,
                    y := (sceneMinY scene + sceneMaxY scene) / 2 } }

/-- The orthographic-scale rule as the specification words it: the scale
is height times aspect times the padding when the aspect-adjusted height
exceeds the width, and width times the padding otherwise.  Stated
separately from the code path to be compared with it. -/
def orthoScaleSpec (width height aspect padding : ℚ) : ℚ :=
  if height * aspect > width then height * aspect * padding else width * padding

/-- BASE_WIDTH = 512 pixels per hex of width. -/
def BASE_WIDTH : ℕ := 512

/-- BASE_HEIGHT = int(512 * 52 / 60) in Python: the value is positive, so
float division followed by int truncation equals natural division. -/
def BASE_HEIGHT : ℕ := 512 * 52 / 60

/-- The scene state produced by the import, link, filter and resolution
steps of render_model: the objects linked by the import loop, the ones
collected for removal, the scene contents once they are removed, and the
render resolution derived from the hex counts. -/
structure RenderState where
  linked : List Obj
  excluded : List Obj
  remaining : List Obj
  resolution_x : ℕ
  resolution_y : ℕ

/-- render_model from render_sprites.py, restricted to its pure scene
arithmetic: the import loop links every non-None imported object and
collects those should_exclude_object accepts; the removal loop deletes
exactly the collected objects; the resolution is the per-hex base times
the hex counts. -/
def render_model (imported : List (Option Obj)) (width_hexes height_hexes : ℕ) : RenderState :=
  let linked := imported.filterMap id
  let excluded := linked.filter should_exclude_object
  { linked := linked,
    excluded := excluded,
    remaining := linked.filter (fun obj => !(should_exclude_object obj)),
    resolution_x := BASE_WIDTH * width_hexes,
    resolution_y := BASE_HEIGHT * height_hexes }

/-- UNIT_CONFIG from render_sprites.py: blend-file stem, output name,
width in hexes, height in hexes, in insertion order. -/
def UNIT_CONFIG : List (String × String × ℕ × ℕ) :=
  [("3dprint_char", "tank", 1, 1),
   ("3dprint_gros_tas", "supertank", 1, 1),
   ("3dprint_crabe", "crab", 1, 1),
   ("3dprint_pondeuse_meteo", "converter", 1, 1),
   ("3dprint_barge", "barge", 2, 1),
   ("3dPrint_vedette", "motorboat", 1, 1),
   ("3dprint_pont", "bridge", 1, 1),
   ("3dprint_astronef", "astronef", 2, 2),
   ("3dprint_marqueur", "marker", 1, 1)]

/-- One observable step of the batch loop in main: either a model was
rendered, or a missing-file warning was printed for it. -/
inductive RenderEvent where
  | rendered : String → ℕ → ℕ → RenderEvent
  | warning : String → RenderEvent
deriving DecidableEq, Repr

/-- Whether an event is a missing-file warning. -/
def RenderEvent.isWarning : RenderEvent → Bool
  | .warning _ => true
  | _ => false

/-- The per-entry body of the batch loop in main: the blend file name is
the stem with the .blend extension; when the file exists the entry is
rendered, otherwise a warning is printed and the entry is skipped.  The
filesystem is abstracted as the existsFile predicate on file names (the
fixed MODELS_DIR prefix is dropped). -/
def mainStep (existsFile : String → Bool) (entry : String × String × ℕ × ℕ) : RenderEvent :=
  if existsFile (entry.1 ++ ".blend") then
    RenderEvent.rendered entry.2.1 entry.2.2.1 entry.2.2.2
  else
    RenderEvent.warning entry.1

/-- The event trace of main over the whole table: the loop never aborts,
so every entry contributes exactly one event, in table order. -/
def mainEvents (existsFile : String → Bool) : List RenderEvent :=
  UNIT_CONFIG.map (mainStep existsFile)

/-! Concrete test data used to instantiate the theorems below. -/

/-- The eight bound-box corners of an axis-aligned box, in the corner
order Blender uses for obj.bound_box. -/
def boxCorners (x0 x1 y0 y1 z0 z1 : ℚ) : List Vec3 :=
  [⟨x0, y0, z0⟩, ⟨x0, y0, z1⟩, ⟨x0, y1, z1⟩, ⟨x0, y1, z0⟩,
   ⟨x1, y0, z0⟩, ⟨x1, y0, z1⟩, ⟨x1, y1, z1⟩, ⟨x1, y1, z0⟩]

/-- A very flat bound box: XY extent 1, z height 0.01. -/
def flatBox : List Vec3 := boxCorners 0 1 0 1 0 (1/100)

/-- A tall bound box: XY extent 1, z height 1. -/
def tallBox : List Vec3 := boxCorners 0 1 0 1 0 1

/-- A bound box with zero XY extent and positive z height. -/
def zeroXYBox : List Vec3 := boxCorners 0 0 0 0 0 3

/-- First mesh of the combined-rectangle scenario: world rectangle from
(-1, -1) to (1, 1), identity world transform. -/
def rectObjA : Obj := ⟨"MESH", "bodyA", boxCorners (-1) 1 (-1) 1 0 1, id⟩

/-- Second mesh of the combined-rectangle scenario: world rectangle from
(3, 3) to (5, 5), identity world transform. -/
def rectObjB : Obj := ⟨"MESH", "bodyB", boxCorners 3 5 3 5 0 1, id⟩

/-- The two-mesh scene of the combined-rectangle scenario, with the
render resolution left as a parameter. -/
def rectScene (rx ry : ℕ) : Scene := ⟨[rectObjA, rectObjB], rx, ry⟩

/-- A one-mesh scene used to instantiate the framing theorems. -/
def cubeScene : Scene := ⟨[⟨"MESH", "turret", boxCorners 0 2 0 4 0 1, id⟩], 512, 443⟩

/-- A scene whose only object is a light, so it has no mesh objects. -/
def lightOnlyScene : Scene := ⟨[⟨"LIGHT", "KeyLight", [], id⟩], 512, 443⟩

/-- The camera as create_camera leaves it: located at (0, 0, 10) with the
default orthographic scale. -/
def baseCam : Camera := ⟨6, ⟨0, 0, 10⟩⟩

/-- A filesystem on which every expected blend file exists except the one
of the bridge entry. -/
def missingOnlyPont : String → Bool := fun s => !(s == "3dprint_pont.blend")

/-! Helper lemmas shared by the claim theorems. -/

/-- A nonempty mesh list makes the isEmpty guard of
fit_camera_to_objects false. -/
lemma sceneMeshes_isEmpty_false {scene : Scene} (h : sceneMeshes scene ≠ []) :
    (sceneMeshes scene).isEmpty = false := by
  cases hm : sceneMeshes scene with
  | nil => exact absurd hm h
  | cons a l => rfl

/-- The orthographic-scale branch of the code agrees with the wording of
the specification whenever the aspect ratio is positive. -/
lemma ortho_branch_agrees (w h a p : ℚ) (ha : 0 < a) :
    (if w / a > h then w * p else h * a * p) = orthoScaleSpec w h a p := by
  unfold orthoScaleSpec
  have hiff : w / a > h ↔ h * a < w := by
    rw [gt_iff_lt, lt_div_iff₀ ha]
  rcases lt_trichotomy w (h * a) with hlt | heq | hgt
  · rw [if_neg (fun hc => absurd (hiff.mp hc) (not_lt.mpr hlt.le)),
      if_pos hlt]
  · rw [if_neg (fun hc => absurd (hiff.mp hc) (not_lt.mpr heq.le)),
      if_neg (fun hc => absurd hc (not_lt.mpr heq.ge)), heq]
  · rw [if_pos (hiff.mpr hgt), if_neg (fun hc => absurd hc (not_lt.mpr hgt.le))]

/-- Counting warnings over the mapped batch loop counts the table entries
whose blend file is missing. -/
lemma warning_count_eq (f : String → Bool) (table : List (String × String × ℕ × ℕ)) :
    ((table.map (mainStep f)).filter RenderEvent.isWarning).length
      = (table.filter fun e => !(f (e.1 ++ ".blend"))).length := by
  induction table with
  | nil => rfl
  | cons hd tl ih =>
    by_cases hf : f (hd.1 ++ ".blend") = true
    · simp [mainStep, hf, RenderEvent.isWarning, List.filter_cons, ih]
    · simp [mainStep, hf, RenderEvent.isWarning, List.filter_cons, ih,
        Bool.eq_false_iff.mpr hf]

/-- Splitting a list by a Boolean test preserves the total length. -/
lemma filter_split_length {α : Type} (p : α → Bool) (l : List α) :
    (l.filter p).length + (l.filter fun a => !(p a)).length = l.length := by
  induction l with
  | nil => rfl
  | cons hd tl ih =>
    by_cases hp : p hd = true
    · simp [List.filter_cons, hp, ih, Nat.succ_add]
    · simp [List.filter_cons, hp, Bool.eq_false_iff.mpr hp, ← ih]
      omega

/-- No exclusion substring occurring in the name makes the any-test of
should_exclude_object false. -/
lemma exclude_any_false {obj : Obj}
    (hpat : ∀ pat ∈ EXCLUDE_PATTERNS, strContainsSub (strLower obj.name) pat = false) :
    (EXCLUDE_PATTERNS.any fun pat => strContainsSub (strLower obj.name) pat) = false := by
  rw [Bool.eq_false_iff]
  intro hc
  obtain ⟨pat, hmem, hsub⟩ := List.any_eq_true.mp hc
  rw [hpat pat hmem] at hsub
  exact Bool.false_ne_true hsub

/-! Claim theorems. -/

/-- C1: every mesh object whose lowercased name contains one of the fixed
exclusion substrings is excluded by should_exclude_object regardless of
its bound-box geometry, and the names plane, hex_socle and ground01 are
always excluded. -/
theorem should_exclude_name_match :
    (∀ obj : Obj, obj.type = "MESH" →
      (∃ pat ∈ EXCLUDE_PATTERNS, strContainsSub (strLower obj.name) pat = true) →
      should_exclude_object obj = true) ∧
    (∀ (bb : List Vec3) (mw : Vec3 → Vec3),
      should_exclude_object ⟨"MESH", "plane", bb, mw⟩ = true ∧
      should_exclude_object ⟨"MESH", "hex_socle", bb, mw⟩ = true ∧
      should_exclude_object ⟨"MESH", "ground01", bb, mw⟩ = true) := by
  constructor
  · intro obj hty hpat
    have hany : (EXCLUDE_PATTERNS.any fun pat => strContainsSub (strLower obj.name) pat) = true :=
      List.any_eq_true.mpr hpat
    simp [should_exclude_object, hty, hany]
  · intro bb mw
    exact ⟨by rfl, by rfl, by rfl⟩

/-- Witness for C1 at a concrete mesh named Ground01 with an empty bound
box. -/
theorem should_exclude_name_match_witness :
    should_exclude_object ⟨"MESH", "Ground01", [], id⟩ = true :=
  should_exclude_name_match.1 ⟨"MESH", "Ground01", [], id⟩ rfl
    ⟨"ground", by decide, by rfl⟩

/-- C2: for a mesh whose name matches no exclusion substring and whose
bound box has positive XY extent, exclusion holds exactly when the ratio
of z height to XY size is below 0.05; the flat unit box of height 0.01
is excluded and the unit cube is retained. -/
theorem should_exclude_flat_geometry :
    (∀ obj : Obj, obj.type = "MESH" →
      (∀ pat ∈ EXCLUDE_PATTERNS, strContainsSub (strLower obj.name) pat = false) →
      0 < xySizeOf obj.bound_box →
      (should_exclude_object obj = true ↔
        zHeightOf obj.bound_box / xySizeOf obj.bound_box < 1/20)) ∧
    should_exclude_object ⟨"MESH", "slab", flatBox, id⟩ = true ∧
    should_exclude_object ⟨"MESH", "cube", tallBox, id⟩ = false := by
  refine ⟨?_, ?_, ?_⟩
  · intro obj hty hpat hxy
    simp [should_exclude_object, hty, exclude_any_false hpat, hxy]
  · norm_num [should_exclude_object, zHeightOf, xySizeOf, flatBox, boxCorners,
      maxList, minList]
  · norm_num [should_exclude_object, zHeightOf, xySizeOf, tallBox, boxCorners,
      maxList, minList]
    decide

/-- Witness for C2 at the flat box with a non-matching name. -/
theorem should_exclude_flat_geometry_witness :
    0 < xySizeOf flatBox ∧
    (should_exclude_object ⟨"MESH", "slab", flatBox, id⟩ = true ↔
      zHeightOf flatBox / xySizeOf flatBox < 1/20) := by
  have hxy : 0 < xySizeOf flatBox := by
    norm_num [xySizeOf, flatBox, boxCorners, maxList, minList]
  exact ⟨hxy, should_exclude_flat_geometry.1 ⟨"MESH", "slab", flatBox, id⟩ rfl
    (by decide) hxy⟩

/-- C5: a mesh whose bound box has zero XY extent and whose name matches
no exclusion substring is retained: the flatness ratio test is guarded
by the positivity check, so only name matching could exclude it. -/
theorem retain_zero_extent :
    ∀ obj : Obj, obj.type = "MESH" →
    (∀ pat ∈ EXCLUDE_PATTERNS, strContainsSub (strLower obj.name) pat = false) →
    xySizeOf obj.bound_box = 0 →
    should_exclude_object obj = false := by
  intro obj hty hpat hxy
  simp [should_exclude_object, hty, exclude_any_false hpat, hxy]

/-- Witness for C5 at a zero-XY-extent box of positive height. -/
theorem retain_zero_extent_witness :
    xySizeOf zeroXYBox = 0 ∧
    should_exclude_object ⟨"MESH", "antenna", zeroXYBox, id⟩ = false := by
  have hxy : xySizeOf zeroXYBox = 0 := by
    norm_num [xySizeOf, zeroXYBox, boxCorners, maxList, minList]
  exact ⟨hxy, retain_zero_extent ⟨"MESH", "antenna", zeroXYBox, id⟩ rfl
    (by decide) hxy⟩

/-- C9: an object whose type is not MESH is retained at once, whatever
its name and bound box. -/
theorem retain_non_mesh :
    ∀ obj : Obj, obj.type ≠ "MESH" → should_exclude_object obj = false := by
  intro obj hty
  simp [should_exclude_object, hty]

/-- Witness for C9 at a camera object named base. -/
theorem retain_non_mesh_witness :
    should_exclude_object ⟨"CAMERA", "base", [], id⟩ = false :=
  retain_non_mesh ⟨"CAMERA", "base", [], id⟩ (by decide)

/-- With at least one mesh, the fitted camera sits at the center of the
combined rectangle in X and Y and keeps its Z coordinate. -/
lemma fit_location_fields (scene : Scene) (camera : Camera) (padding : ℚ)
    (hm : sceneMeshes scene ≠ []) :
    (fit_camera_to_objects scene camera padding).location.x
        = (sceneMinX scene + sceneMaxX scene) / 2 ∧
    (fit_camera_to_objects scene camera padding).location.y
        = (sceneMinY scene + sceneMaxY scene) / 2 ∧
    (fit_camera_to_objects scene camera padding).location.z = camera.location.z := by
  simp [fit_camera_to_objects, sceneMeshes_isEmpty_false hm]

/-- With at least one mesh and a positive aspect ratio, the fitted
orthographic scale is the one the specification describes on the
combined rectangle. -/
lemma fit_ortho_spec (scene : Scene) (camera : Camera) (padding : ℚ)
    (hm : sceneMeshes scene ≠ []) (ha : 0 < aspectOf scene) :
    (fit_camera_to_objects scene camera padding).ortho_scale
      = orthoScaleSpec (sceneWidth scene) (sceneHeight scene) (aspectOf scene) padding := by
  rw [← ortho_branch_agrees (sceneWidth scene) (sceneHeight scene) (aspectOf scene) padding ha]
  simp [fit_camera_to_objects, sceneMeshes_isEmpty_false hm]

/-- C7: with no mesh objects in the scene, fit_camera_to_objects returns
the camera unchanged, silently. -/
theorem fit_camera_no_meshes :
    ∀ (scene : Scene) (camera : Camera) (padding : ℚ),
    sceneMeshes scene = [] →
    fit_camera_to_objects scene camera padding = camera := by
  intro scene camera padding h
  simp [fit_camera_to_objects, h]

/-- Witness for C7 on a scene whose only object is a light. -/
theorem fit_camera_no_meshes_witness :
    fit_camera_to_objects lightOnlyScene baseCam (6/5) = baseCam :=
  fit_camera_no_meshes lightOnlyScene baseCam (6/5) (by rfl)

/-- C8: with at least one mesh object, fit_camera_to_objects sets only
the X and Y of the camera location, to the center of the combined
rectangle, and leaves the Z coordinate unchanged. -/
theorem fit_camera_recenters_xy_only :
    ∀ (scene : Scene) (camera : Camera) (padding : ℚ),
    sceneMeshes scene ≠ [] →
    (fit_camera_to_objects scene camera padding).location.x
        = (sceneMinX scene + sceneMaxX scene) / 2 ∧
    (fit_camera_to_objects scene camera padding).location.y
        = (sceneMinY scene + sceneMaxY scene) / 2 ∧
    (fit_camera_to_objects scene camera padding).location.z = camera.location.z :=
  fun scene camera padding hm => fit_location_fields scene camera padding hm

/-- Witness for C8 on the one-cube scene. -/
theorem fit_camera_recenters_xy_only_witness :
    (fit_camera_to_objects cubeScene baseCam (6/5)).location.x
        = (sceneMinX cubeScene + sceneMaxX cubeScene) / 2 ∧
    (fit_camera_to_objects cubeScene baseCam (6/5)).location.y
        = (sceneMinY cubeScene + sceneMaxY cubeScene) / 2 ∧
    (fit_camera_to_objects cubeScene baseCam (6/5)).location.z = baseCam.location.z :=
  fit_camera_recenters_xy_only cubeScene baseCam (6/5) (by simp [sceneMeshes, cubeScene])

/-- C3: with meshes present and a positive aspect ratio the fitted
orthographic scale follows the specifications branch on the combined
rectangle dimensions, and on the two-rectangle scenario the combined
rectangle is [(-1,-1),(5,5)], width 6, height 6, camera center (2,2). -/
theorem fit_camera_combined_rect :
    (∀ (scene : Scene) (camera : Camera) (padding : ℚ),
      sceneMeshes scene ≠ [] → 0 < aspectOf scene →
      (fit_camera_to_objects scene camera padding).ortho_scale
        = orthoScaleSpec (sceneWidth scene) (sceneHeight scene) (aspectOf scene) padding) ∧
    (∀ (rx ry : ℕ) (camera : Camera), 0 < rx → 0 < ry →
      sceneMinX (rectScene rx ry) = -1 ∧ sceneMaxX (rectScene rx ry) = 5 ∧
      sceneMinY (rectScene rx ry) = -1 ∧ sceneMaxY (rectScene rx ry) = 5 ∧
      sceneWidth (rectScene rx ry) = 6 ∧ sceneHeight (rectScene rx ry) = 6 ∧
      (fit_camera_to_objects (rectScene rx ry) camera (6/5)).location.x = 2 ∧
      (fit_camera_to_objects (rectScene rx ry) camera (6/5)).location.y = 2 ∧
      (fit_camera_to_objects (rectScene rx ry) camera (6/5)).ortho_scale
        = orthoScaleSpec 6 6 (aspectOf (rectScene rx ry)) (6/5)) := by
  constructor
  · exact fun scene camera padding hm ha => fit_ortho_spec scene camera padding hm ha
  · intro rx ry camera hrx hry
    have hm : sceneMeshes (rectScene rx ry) ≠ [] := by
      simp [sceneMeshes, rectScene, rectObjA, rectObjB]
    have ha : 0 < aspectOf (rectScene rx ry) := by
      apply div_pos
      · exact_mod_cast hrx
      · exact_mod_cast hry
    have hminx : sceneMinX (rectScene rx ry) = -1 := by
      norm_num [sceneMinX, worldCorners, sceneMeshes, rectScene, rectObjA, rectObjB,
        boxCorners, minList, maxList]
    have hmaxx : sceneMaxX (rectScene rx ry) = 5 := by
      norm_num [sceneMaxX, worldCorners, sceneMeshes, rectScene, rectObjA, rectObjB,
        boxCorners, minList, maxList]
    have hminy : sceneMinY (rectScene rx ry) = -1 := by
      norm_num [sceneMinY, worldCorners, sceneMeshes, rectScene, rectObjA, rectObjB,
        boxCorners, minList, maxList]
    have hmaxy : sceneMaxY (rectScene rx ry) = 5 := by
      norm_num [sceneMaxY, worldCorners, sceneMeshes, rectScene, rectObjA, rectObjB,
        boxCorners, minList, maxList]
    have hw : sceneWidth (rectScene rx ry) = 6 := by
      rw [sceneWidth, hminx, hmaxx]; norm_num
    have hh : sceneHeight (rectScene rx ry) = 6 := by
      rw [sceneHeight, hminy, hmaxy]; norm_num
    obtain ⟨hx, hy, -⟩ := fit_location_fields (rectScene rx ry) camera (6/5) hm
    refine ⟨hminx, hmaxx, hminy, hmaxy, hw, hh, ?_, ?_, ?_⟩
    · rw [hx, hminx, hmaxx]; norm_num
    · rw [hy, hminy, hmaxy]; norm_num
    · rw [fit_ortho_spec (rectScene rx ry) camera (6/5) hm ha, hw, hh]

/-- Witness for C3 at the concrete resolution 512 by 443. -/
theorem fit_camera_combined_rect_witness :
    sceneWidth (rectScene 512 443) = 6 ∧
    (fit_camera_to_objects (rectScene 512 443) baseCam (6/5)).location.x = 2 ∧
    (fit_camera_to_objects (rectScene 512 443) baseCam (6/5)).ortho_scale
      = orthoScaleSpec 6 6 (aspectOf (rectScene 512 443)) (6/5) := by
  obtain ⟨-, -, -, -, hw, -, hx, -, ho⟩ :=
    fit_camera_combined_rect.2 512 443 baseCam (by decide) (by decide)
  exact ⟨hw, hx, ho⟩

/-- C4: the render resolution is 512 pixels per hex of width and the
once-truncated 443 pixels per hex of height; a 2 by 1 model gets
1024 by 443 and a 1 by 1 model gets 512 by 443. -/
theorem render_resolution :
    (∀ (imported : List (Option Obj)) (w h : ℕ),
      (render_model imported w h).resolution_x = 512 * w ∧
      (render_model imported w h).resolution_y = 443 * h) ∧
    BASE_HEIGHT = 512 * 52 / 60 ∧ BASE_HEIGHT = 443 ∧
    (render_model [] 2 1).resolution_x = 1024 ∧
    (render_model [] 2 1).resolution_y = 443 ∧
    (render_model [] 1 1).resolution_x = 512 ∧
    (render_model [] 1 1).resolution_y = 443 :=
  ⟨fun imported w h => ⟨rfl, rfl⟩, rfl, rfl, rfl, rfl, rfl, rfl⟩

/-- C10: the import loop of render_model links exactly the non-None
imported objects, and None entries have no effect at all on the scene
state it produces. -/
theorem render_model_skips_none :
    ∀ (imported : List (Option Obj)) (w h : ℕ),
    (render_model imported w h).linked = imported.filterMap id ∧
    render_model imported w h = render_model ((imported.filterMap id).map some) w h := by
  intro imported w h
  have hfm : ((imported.filterMap id).map some).filterMap id = imported.filterMap id := by
    simp
  exact ⟨rfl, by simp [render_model, hfm]⟩

/-- C6: when exactly one table entry has a missing blend file, the batch
loop of main emits exactly one warning, renders every other entry, and
still walks the whole table to completion. -/
theorem main_one_missing_file :
    ∀ f : String → Bool,
    (UNIT_CONFIG.filter fun e => !(f (e.1 ++ ".blend"))).length = 1 →
    ((mainEvents f).filter RenderEvent.isWarning).length = 1 ∧
    ((mainEvents f).filter fun e => !(RenderEvent.isWarning e)).length
        = UNIT_CONFIG.length - 1 ∧
    (mainEvents f).length = UNIT_CONFIG.length ∧
    (∀ e ∈ UNIT_CONFIG, f (e.1 ++ ".blend") = true →
      RenderEvent.rendered e.2.1 e.2.2.1 e.2.2.2 ∈ mainEvents f) := by
  intro f hone
  have hw : ((mainEvents f).filter RenderEvent.isWarning).length = 1 := by
    rw [mainEvents, warning_count_eq, hone]
  have hlen : (mainEvents f).length = UNIT_CONFIG.length := by
    simp [mainEvents]
  have hsplit := filter_split_length RenderEvent.isWarning (mainEvents f)
  refine ⟨hw, by omega, hlen, ?_⟩
  intro e he hf
  have hstep : mainStep f e = RenderEvent.rendered e.2.1 e.2.2.1 e.2.2.2 := by
    simp [mainStep, hf]
  rw [mainEvents]
  exact hstep ▸ List.mem_map_of_mem (mainStep f) he

/-- Witness for C6 on a filesystem missing exactly the bridge blend
file. -/
theorem main_one_missing_file_witness :
    (UNIT_CONFIG.filter fun e => !(missingOnlyPont (e.1 ++ ".blend"))).length = 1 ∧
    ((mainEvents missingOnlyPont).filter RenderEvent.isWarning).length = 1 ∧
    RenderEvent.rendered "tank" 1 1 ∈ mainEvents missingOnlyPont := by
  have hone : (UNIT_CONFIG.filter fun e => !(missingOnlyPont (e.1 ++ ".blend"))).length = 1 := by
    decide
  obtain ⟨hw, -, -, hmem⟩ := main_one_missing_file missingOnlyPont hone
  exact ⟨hone, hw, hmem ("3dprint_char", "tank", 1, 1) (by decide) (by decide)⟩
